import Mathlib

set_option maxRecDepth 100000

/-!
Formal model of the single-file Streamlit application `Visualisations/app.py`
(top-N hotels by city).

Modelling conventions, chosen to follow the Python source:

* A pandas dataframe is a list of rows; the row order of the dataframe is the
  order of the list.
* A numeric CSV cell that may be NaN is an `Option` value (`none` = NaN).
* The three optional text columns (`hotel_name`, `hotel_url`,
  `hotel_description`) are modelled by the type `Cell`, which distinguishes a
  column that is absent from the row index from a NaN value, because
  `Series.get(key, default)` returns the default only when the key is absent
  from the index, while a present NaN value flows through `str(...)` and
  becomes the three-letter string "nan".
* Python floats are modelled as rationals; `pandas.to_numeric(errors="coerce")`
  is modelled by an arbitrary parsing function `String → Option ℚ` that the
  loader theorems quantify over.
* `sort_values(by="hotel_rating", ascending=False)` is called with the default
  `kind="quicksort"`, which pandas documents as an unstable sort that places
  NaN keys last.  The executable model `sortRows` fixes one conforming
  implementation (a stable insertion sort on the same key); the relation
  `SortValuesOutput` captures exactly what the pandas call guarantees, namely
  some permutation of its input that is sorted by rating descending.
-/

/-- Value of one optional text column of a pandas row: the column can be
absent from the row index, hold a NaN (missing) value, or hold a string. -/
inductive Cell where
  | absent : Cell
  | nan : Cell
  | str (s : String) : Cell
  deriving DecidableEq

/-- One row of the CSV file as read by `pd.read_csv`: the rating cell is raw
text that may be missing, coordinates are numeric-or-missing, and the three
optional text columns are `Cell`s.  Columns used by `dropna` and by direct
indexing must exist, otherwise the script would abort with a KeyError. -/
structure RawRow where
  city_name : Option String
  hotel_rating : Option String
  hotel_latitude : Option ℚ
  hotel_longitude : Option ℚ
  hotel_name : Cell
  hotel_url : Cell
  hotel_description : Cell
  deriving DecidableEq

/-- One row after `load_data`: the rating has been coerced to a number by
`pd.to_numeric(errors="coerce")` and may in principle still be missing, which
is exactly the shape the render-time code tests with `pd.notna`. -/
structure Row where
  city_name : Option String
  hotel_rating : Option ℚ
  hotel_latitude : Option ℚ
  hotel_longitude : Option ℚ
  hotel_name : Cell
  hotel_url : Cell
  hotel_description : Cell
  deriving DecidableEq

/-- Embeds `color_by_rating` (app.py lines 34-42): NaN is gray, then the
`r >= 9.0` / `r >= 8.0` ladder. -/
def color_by_rating (r : Option ℚ) : String :=
  match r with
  | none => "gray"
  | some x => if 9 ≤ x then "green" else if 8 ≤ x then "orange" else "red"

/-- Embeds the `to_numeric` step of `load_data`: the rating column is mapped
through the coercion, every other column is untouched. -/
def toNumericRow (parse : String → Option ℚ) (r : RawRow) : Row :=
  { city_name := r.city_name
    hotel_rating := r.hotel_rating.bind parse
    hotel_latitude := r.hotel_latitude
    hotel_longitude := r.hotel_longitude
    hotel_name := r.hotel_name
    hotel_url := r.hotel_url
    hotel_description := r.hotel_description }

/-- Embeds `load_data` (app.py lines 44-52): drop rows with a missing value
in `hotel_rating`, `hotel_latitude` or `hotel_longitude`; coerce the rating
with `to_numeric(errors="coerce")` (modelled by `parse`); drop the rows whose
rating failed the coercion. -/
def load_data (parse : String → Option ℚ) (rows : List RawRow) : List Row :=
  (((rows.filter fun r =>
      r.hotel_rating.isSome && r.hotel_latitude.isSome && r.hotel_longitude.isSome).map
    (toNumericRow parse)).filter fun r => r.hotel_rating.isSome)

/-- Sample raw row used by the loader witnesses. -/
def rawSample : RawRow :=
  { city_name := some "Paris"
    hotel_rating := some "9"
    hotel_latitude := some 48
    hotel_longitude := some 2
    hotel_name := Cell.str "Hotel du Nord"
    hotel_url := Cell.str "https://example.org"
    hotel_description := Cell.str "quiet" }

/-- Sample coercion function used by the loader witnesses: parses the single
string "9". -/
def parseSample (s : String) : Option ℚ :=
  if s = "9" then some 9 else none

/-- Boolean predicate of the row filter `df["city_name"] == selected_city`:
pandas elementwise equality, under which a NaN city never equals a string. -/
def cityEq (city : String) (r : Row) : Bool :=
  decide (r.city_name = some city)

/-- Boolean predicate of the row filter `city_df["hotel_rating"] >= min_rating`:
a NaN rating compares false. -/
def ratingGE (m : ℚ) (r : Row) : Bool :=
  match r.hotel_rating with
  | some x => decide (m ≤ x)
  | none => false

/-- Comparison key of `sort_values(by="hotel_rating", ascending=False)`:
row `a` may be placed before row `b` iff the rating of `a` is at least the
rating of `b`, with NaN keys placed last (`na_position="last"`). -/
def descLE (a b : Row) : Bool :=
  match a.hotel_rating, b.hotel_rating with
  | some x, some y => decide (y ≤ x)
  | some _, none => true
  | none, some _ => false
  | none, none => true

/-- Totality of the sort comparison. -/
instance : IsTotal Row (fun a b => descLE a b = true) := by
  constructor
  intro a b
  unfold descLE
  rcases a.hotel_rating with - | x <;> rcases b.hotel_rating with - | y <;> simp
  exact le_total y x

/-- Transitivity of the sort comparison. -/
instance : IsTrans Row (fun a b => descLE a b = true) := by
  constructor
  intro a b c
  unfold descLE
  rcases a.hotel_rating with - | x <;> rcases b.hotel_rating with - | y <;>
    rcases c.hotel_rating with - | z <;> simp
  exact fun h1 h2 => h2.trans h1

/-- Executable model of the `sort_values` call: one conforming implementation
of a sort by rating descending with NaN keys last. -/
def sortRows (l : List Row) : List Row :=
  List.insertionSort (fun a b => descLE a b = true) l

/-- Embeds the selection pipeline of app.py lines 72-76: restrict to the
selected city, sort by rating descending, keep the rows meeting the minimum
rating, truncate to the first `top_n` rows. -/
def select (df : List Row) (selected_city : String) (min_rating : ℚ)
    (top_n : ℕ) : List Row :=
  (((sortRows (df.filter (cityEq selected_city))).filter
    (ratingGE min_rating)).take top_n)

/-- Helper constructor for concrete rows used in witnesses. -/
def mkRow (city : String) (rating : ℚ) (name : String) : Row :=
  { city_name := some city
    hotel_rating := some rating
    hotel_latitude := some 1
    hotel_longitude := some 2
    hotel_name := Cell.str name
    hotel_url := Cell.absent
    hotel_description := Cell.absent }

/-- Concrete dataframe for the C1 witness. -/
def dfC1 : List Row := [mkRow "P" 8 "low", mkRow "P" 9 "high", mkRow "Q" 10 "other"]

/-- Relational contract of the `sort_values` call: pandas guarantees some
permutation of the input that is sorted by the key (rating descending, NaN
last).  With the default `kind="quicksort"` nothing more is guaranteed; in
particular the relative order of rows with equal keys is not preserved. -/
def SortValuesOutput (inp out : List Row) : Prop :=
  out.Perm inp ∧ out.Pairwise (fun a b => descLE a b = true)

/-- Relational contract of the whole selection pipeline, with the sort step
left as loose as pandas documents it. -/
def SelectOutput (df : List Row) (selected_city : String) (min_rating : ℚ)
    (top_n : ℕ) (out : List Row) : Prop :=
  ∃ s, SortValuesOutput (df.filter (cityEq selected_city)) s
    ∧ out = (s.filter (ratingGE min_rating)).take top_n

/-- Stability property claimed by the spec: two returned rows with equal
ratings appear in the same relative order as in the original dataframe. -/
def StableOnTies (df out : List Row) : Prop :=
  ∀ a b : Row, a.hotel_rating = b.hotel_rating →
    List.Sublist [a, b] out → List.Sublist [a, b] df

/-- Concrete two-row dataframe with a rating tie, same city. -/
def dfTie : List Row := [mkRow "P" 9 "A", mkRow "P" 9 "B"]

/-- Tie-swapped output used by the C5 counterexample. -/
def outTie : List Row := [mkRow "P" 9 "B", mkRow "P" 9 "A"]

/-- Embeds the character-level behaviour of Python `html.escape(s)` with its
default `quote=True`: the five markup-significant characters are replaced by
their entities, every other character is kept.  The sequential `str.replace`
calls of the library are equivalent to this single character map because no
replacement string contains a character that a later replacement rewrites. -/
def escChar (c : Char) : List Char :=
  if c = '&' then ['&', 'a', 'm', 'p', ';']
  else if c = '<' then ['&', 'l', 't', ';']
  else if c = '>' then ['&', 'g', 't', ';']
  else if c = Char.ofNat 34 then ['&', 'q', 'u', 'o', 't', ';']
  else if c = Char.ofNat 39 then ['&', '#', 'x', '2', '7', ';']
  else [c]

/-- Character-list version of `html.escape`. -/
def escList : List Char → List Char
  | [] => []
  | c :: cs => escChar c ++ escList cs

/-- Embeds Python `html.escape` on strings. -/
def htmlEscape (s : String) : String :=
  String.mk (escList s.data)

/-- Rounding half to even, the rounding used by Python float formatting.
The binary-float representation error of the CPython runtime is abstracted
away: ratings are exact rationals here. -/
def roundTiesEven (q : ℚ) : ℤ :=
  if q - ⌊q⌋ < 1/2 then ⌊q⌋
  else if 1/2 < q - ⌊q⌋ then ⌊q⌋ + 1
  else if ⌊q⌋ % 2 = 0 then ⌊q⌋ else ⌊q⌋ + 1

/-- Decimal digit characters of a natural number, most significant first. -/
def natChars (n : ℕ) : List Char :=
  if h : n < 10 then [Char.ofNat (48 + n)]
  else natChars (n / 10) ++ [Char.ofNat (48 + n % 10)]
decreasing_by
  exact Nat.div_lt_self (by omega) (by omega)

/-- Embeds the Python format expression `f"{r:.1f}"`: the value times ten is
rounded half to even and printed with one digit after the decimal point. -/
def fmt1 (q : ℚ) : String :=
  String.mk ((if q < 0 then ['-'] else [])
    ++ natChars ((roundTiesEven (q * 10)).natAbs / 10)
    ++ '.' :: natChars ((roundTiesEven (q * 10)).natAbs % 10))

/-- Embeds `str(row.get(key, default))` for an optional text column: the
default is used only when the column is absent from the row index; a present
NaN value becomes the string "nan". -/
def getStr (c : Cell) (dflt : String) : String :=
  match c with
  | Cell.absent => dflt
  | Cell.nan => "nan"
  | Cell.str s => s

/-- Embeds `str(row.get("hotel_name", "Unknown Hotel"))`. -/
def nameShown (r : Row) : String :=
  getStr r.hotel_name "Unknown Hotel"

/-- Embeds `str(row.get("hotel_url", "#"))`. -/
def urlShown (r : Row) : String :=
  getStr r.hotel_url "#"

/-- Embeds `str(row.get("hotel_description", ""))`. -/
def descShown (r : Row) : String :=
  getStr r.hotel_description ""

/-- Embeds `safe_name = html.escape(str(name))` (app.py line 104). -/
def safe_name (r : Row) : String :=
  htmlEscape (nameShown r)

/-- Embeds `html.escape(str(url))` used inside the popup hyperlink. -/
def safe_url (r : Row) : String :=
  htmlEscape (urlShown r)

/-- Embeds `safe_desc = html.escape(str(desc))[:300] + ("..." if
len(str(desc)) > 300 else "")` (app.py line 105): the escaped text is
truncated to 300 characters, while the ellipsis test looks at the length of
the raw text. -/
def safe_desc (r : Row) : String :=
  String.mk ((escList (descShown r).data).take 300
    ++ (if 300 < (descShown r).data.length then ['.', '.', '.'] else []))

/-- Embeds `rating_txt = f"{rating:.1f}" if pd.notna(rating) else "N/A"`. -/
def rating_txt (r : Row) : String :=
  match r.hotel_rating with
  | some x => fmt1 x
  | none => "N/A"

/-- Literal popup markup before the hotel name. -/
def popupT1 : String :=
  "\n    <div style=\"font-size:13px; line-height:1.3;\">\n      <strong>"

/-- Literal popup markup between the hotel name and the rating. -/
def popupT2 : String :=
  "</strong><br>\n      <em>Rating:</em> "

/-- Literal popup markup between the rating and the description. -/
def popupT3 : String :=
  "<br>\n      <em>Description:</em> "

/-- Literal popup markup between the description and the hyperlink target. -/
def popupT4 : String :=
  "<br>\n      <a href=\""

/-- Literal popup markup after the hyperlink target. -/
def popupT5 : String :=
  "\" target=\"_blank\" rel=\"noopener noreferrer\">🔗 View on Booking</a>\n    </div>\n    "

/-- Embeds the popup f-string of app.py lines 108-115. -/
def popup_html (r : Row) : String :=
  popupT1 ++ safe_name r ++ popupT2 ++ rating_txt r ++ popupT3
    ++ safe_desc r ++ popupT4 ++ safe_url r ++ popupT5

/-- One Folium marker: position, icon color, popup markup. -/
structure Marker where
  location : Option ℚ × Option ℚ
  color : String
  popup : String
  deriving DecidableEq

/-- Embeds the `folium.Marker` construction of the row loop. -/
def buildMarker (r : Row) : Marker :=
  { location := (r.hotel_latitude, r.hotel_longitude)
    color := color_by_rating r.hotel_rating
    popup := popup_html r }

/-- The map view produced by the map-building section: the points passed to
`fit_bounds`, whether a `MarkerCluster` layer is used (row count above ten),
and one marker per row. -/
structure MapView where
  bounds : List (Option ℚ × Option ℚ)
  clustered : Bool
  markers : List Marker
  deriving DecidableEq

/-- Embeds the map-building section of app.py lines 92-125. -/
def build (rows : List Row) : MapView :=
  { bounds := rows.map fun r => (r.hotel_latitude, r.hotel_longitude)
    clustered := decide (10 < rows.length)
    markers := rows.map buildMarker }

/-- Outcome of one interaction: either the early-exit empty-state warning
(`st.warning` followed by `st.stop()`), or a rendered map. -/
inductive RenderResult where
  | emptyNotice (msg : String) : RenderResult
  | mapView (view : MapView) : RenderResult
  deriving DecidableEq

/-- Embeds the control flow of the script after the sidebar: filter and sort,
then either stop with the empty-state warning or build the map. -/
def app (df : List Row) (selected_city : String) (min_rating : ℚ)
    (top_n : ℕ) : RenderResult :=
  let city_df := select df selected_city min_rating top_n
  if city_df.isEmpty then
    RenderResult.emptyNotice
      ("No hotels meeting the criteria in **" ++ selected_city ++ "**.")
  else
    RenderResult.mapView (build city_df)

/-- Literal legend markdown of the last line of app.py. -/
def legend : String :=
  "**Legend:** 🟢 ≥ 9.0 🟠 8.0–8.9 🔴 < 8.0"

/-- Proposition that a string mentions the gray marker category in some
recognisable textual form. -/
def mentionsGray (s : String) : Prop :=
  "gray".data <:+: s.data ∨ "grey".data <:+: s.data ∨ "⚪".data <:+: s.data
    ∨ "⚫".data <:+: s.data ∨ "🩶".data <:+: s.data ∨ "N/A".data <:+: s.data
    ∨ "missing".data <:+: s.data

/-- Proposition that the legend line describes all four marker categories. -/
def legendDescribesFour : Prop :=
  "🟢".data <:+: legend.data ∧ "🟠".data <:+: legend.data
    ∧ "🔴".data <:+: legend.data ∧ mentionsGray legend

/-- Row whose name column is present but NaN. -/
def rowNanName : Row :=
  { city_name := some "P"
    hotel_rating := some 9
    hotel_latitude := some 1
    hotel_longitude := some 2
    hotel_name := Cell.nan
    hotel_url := Cell.absent
    hotel_description := Cell.absent }

/-- Row whose three optional text columns are absent from the row index. -/
def rowAllAbsent : Row :=
  { city_name := some "P"
    hotel_rating := some 9
    hotel_latitude := some 1
    hotel_longitude := some 2
    hotel_name := Cell.absent
    hotel_url := Cell.absent
    hotel_description := Cell.absent }

/-- Description of 350 ampersands, whose escape quintuples in length. -/
def descAmp : String := String.mk (List.replicate 350 '&')

/-- Row carrying the ampersand description. -/
def rowAmp : Row :=
  { city_name := some "P"
    hotel_rating := some 9
    hotel_latitude := some 1
    hotel_longitude := some 2
    hotel_name := Cell.absent
    hotel_url := Cell.absent
    hotel_description := Cell.str descAmp }

/-- Plain description of 350 letters. -/
def descLong : String := String.mk (List.replicate 350 'a')

/-- Row carrying the plain 350-letter description. -/
def rowLong : Row :=
  { city_name := some "P"
    hotel_rating := some 9
    hotel_latitude := some 1
    hotel_longitude := some 2
    hotel_name := Cell.absent
    hotel_url := Cell.absent
    hotel_description := Cell.str descLong }

/-- Property that a character list contains no raw left angle bracket; all
escaped content satisfies it. -/
def NoLT (l : List Char) : Prop := '<' ∉ l

/-- Property that a character list does not end in a partial match of the
opening of a script tag. -/
def EndsOk (l : List Char) : Prop :=
  ¬ (['<'] <:+ l) ∧ ¬ (['<', 's'] <:+ l)

/-- Safe building block of popup markup: no occurrence of the first three
characters of a script tag, and no dangerous tail.  The property is
preserved by concatenation and rules out any occurrence of the raw tag. -/
def SafeChunk (l : List Char) : Prop :=
  ¬ (['<', 's', 'c'] <:+: l) ∧ EndsOk l

/-- Description whose script tag starts at position 297, so that its escape
straddles the 300-character truncation boundary. -/
def descFar : String := String.mk (List.replicate 297 'a' ++ "<script>".data)

/-- Row carrying `descFar`; the rating is left missing so that the popup is
a closed computation over list operations only. -/
def rowScriptFar : Row :=
  { city_name := some "P"
    hotel_rating := none
    hotel_latitude := some 1
    hotel_longitude := some 2
    hotel_name := Cell.absent
    hotel_url := Cell.absent
    hotel_description := Cell.str descFar }

/-- Row with a short description containing a script tag. -/
def rowScriptNear : Row :=
  { city_name := some "P"
    hotel_rating := none
    hotel_latitude := some 1
    hotel_longitude := some 2
    hotel_name := Cell.absent
    hotel_url := Cell.absent
    hotel_description := Cell.str "x<script>y" }

/-! ### Theorems -/

/-- Helper: the character map of `html.escape` distributes over append. -/
lemma escList_append (a b : List Char) :
    escList (a ++ b) = escList a ++ escList b := by
  induction a with
  | nil => rfl
  | cons c cs ih => simp [escList, ih]

/-- Helper: on text without markup-significant characters, escaping is the
identity. -/
lemma escList_eq_self (l : List Char) (h : ∀ c ∈ l, escChar c = [c]) :
    escList l = l := by
  induction l with
  | nil => rfl
  | cons c cs ih =>
    simp [escList, h c (by simp), ih fun d hd => h d (by simp [hd])]

/-- Helper: character list of the rendered description. -/
lemma safe_desc_data (r : Row) :
    (safe_desc r).data
      = (escList (descShown r).data).take 300
        ++ (if 300 < (descShown r).data.length then ['.', '.', '.'] else []) :=
  rfl

/-- Claim C4: `color_by_rating` is total on rational-or-missing ratings;
missing maps to gray, a present rating maps to green, orange or red, with
green iff the rating is at least 9, orange iff it is in [8, 9), red iff it is
below 8, and the boundary values 9 and 8 map to green and orange. -/
theorem color_by_rating_spec :
    color_by_rating none = "gray"
    ∧ (∀ r : ℚ, color_by_rating (some r) = "green"
        ∨ color_by_rating (some r) = "orange"
        ∨ color_by_rating (some r) = "red")
    ∧ (∀ r : ℚ, 9 ≤ r → color_by_rating (some r) = "green")
    ∧ (∀ r : ℚ, 8 ≤ r → r < 9 → color_by_rating (some r) = "orange")
    ∧ (∀ r : ℚ, r < 8 → color_by_rating (some r) = "red")
    ∧ color_by_rating (some 9) = "green"
    ∧ color_by_rating (some 8) = "orange" := by
  refine ⟨rfl, ?_, ?_, ?_, ?_, by decide, by decide⟩
  · intro r
    dsimp only [color_by_rating]
    split_ifs <;> simp
  · intro r h
    simp [color_by_rating, h]
  · intro r h1 h2
    simp [color_by_rating, h1, not_le.mpr h2]
  · intro r h
    have h8 : ¬ (8 : ℚ) ≤ r := not_le.mpr h
    have h9 : ¬ (9 : ℚ) ≤ r := not_le.mpr (h.trans (by norm_num))
    simp [color_by_rating, h8, h9]

/-- Witness for C4 at concrete ratings. -/
theorem color_by_rating_spec_witness :
    (9 : ℚ) ≤ 10 ∧ color_by_rating (some 10) = "green"
    ∧ (7 : ℚ) < 8 ∧ color_by_rating (some 7) = "red" :=
  ⟨by norm_num, color_by_rating_spec.2.2.1 10 (by norm_num),
   by norm_num, color_by_rating_spec.2.2.2.2.1 7 (by norm_num)⟩

/-- Claim C2: every row surviving `load_data` has a present numeric rating
(present by the second `dropna`, numeric by the type of the coerced column)
and present latitude and longitude (by the first `dropna`, which `to_numeric`
does not disturb).  The statement quantifies over every coercion function,
so it does not depend on which strings pandas can parse. -/
theorem load_data_invariant (parse : String → Option ℚ) (rows : List RawRow) :
    ∀ r ∈ load_data parse rows,
      r.hotel_rating.isSome = true
      ∧ r.hotel_latitude.isSome = true
      ∧ r.hotel_longitude.isSome = true := by
  intro r hr
  unfold load_data at hr
  obtain ⟨hmem, hrat⟩ := List.mem_filter.mp hr
  obtain ⟨r0, hr0, rfl⟩ := List.mem_map.mp hmem
  obtain ⟨-, hcond⟩ := List.mem_filter.mp hr0
  simp only [Bool.and_eq_true] at hcond
  exact ⟨hrat, hcond.1.2, hcond.2⟩

/-- Witness for C2 on a concrete one-row dataset. -/
theorem load_data_invariant_witness :
    toNumericRow parseSample rawSample ∈ load_data parseSample [rawSample]
    ∧ (toNumericRow parseSample rawSample).hotel_rating.isSome = true :=
  ⟨by decide,
   (load_data_invariant parseSample [rawSample] _ (by decide)).1⟩

/-- Helper: the output of `select` is drawn from the input dataframe. -/
theorem select_subset (df : List Row) (city : String) (m : ℚ) (n : ℕ) :
    ∀ r ∈ select df city m n, r ∈ df := by
  intro r hr
  unfold select at hr
  have h1 := List.take_subset _ _ hr
  have h2 := (List.mem_filter.mp h1).1
  have h3 := ((List.perm_insertionSort _ _).mem_iff).mp h2
  exact (List.mem_filter.mp h3).1

/-- Claim C1: `select` returns exactly `min top_n k` rows, where `k` is the
number of rows of the dataframe that match the city and meet the rating
cutoff; every returned row is in the selected city with a present rating at
least the cutoff; and the result is sorted by rating descending.  The cutoff
is applied before the truncation, so the result is the best `top_n` rows
among those meeting the bar. -/
theorem select_spec (df : List Row) (city : String) (m : ℚ) (n : ℕ) :
    (select df city m n).length
      = min n (df.filter (fun r => ratingGE m r && cityEq city r)).length
    ∧ (∀ r ∈ select df city m n, r.city_name = some city)
    ∧ (∀ r ∈ select df city m n, ∃ x, r.hotel_rating = some x ∧ m ≤ x)
    ∧ (select df city m n).Pairwise (fun a b => descLE a b = true) := by
  refine ⟨?_, ?_, ?_, ?_⟩
  · unfold select sortRows
    rw [List.length_take]
    congr 1
    rw [((List.perm_insertionSort (fun a b => descLE a b = true)
      (df.filter (cityEq city))).filter (ratingGE m)).length_eq]
    rw [List.filter_filter]
  · intro r hr
    unfold select at hr
    have h1 := List.take_subset _ _ hr
    have h2 := (List.mem_filter.mp h1).1
    have h3 := ((List.perm_insertionSort _ _).mem_iff).mp h2
    have h4 := (List.mem_filter.mp h3).2
    exact of_decide_eq_true h4
  · intro r hr
    unfold select at hr
    have h1 := List.take_subset _ _ hr
    have h2 := (List.mem_filter.mp h1).2
    unfold ratingGE at h2
    rcases hx : r.hotel_rating with - | x
    · rw [hx] at h2
      simp at h2
    · rw [hx] at h2
      exact ⟨x, rfl, of_decide_eq_true h2⟩
  · unfold select
    have hs : (sortRows (df.filter (cityEq city))).Pairwise
        (fun a b => descLE a b = true) :=
      List.sorted_insertionSort _ _
    exact ((hs.filter _).sublist (List.take_sublist _ _))

/-- Witness for C1 on a concrete dataframe: the top rated row of city P is
returned, it carries city P, and its rating meets the cutoff. -/
theorem select_spec_witness :
    mkRow "P" 9 "high" ∈ select dfC1 "P" 8 2
    ∧ (mkRow "P" 9 "high").city_name = some "P"
    ∧ (∃ x, (mkRow "P" 9 "high").hotel_rating = some x ∧ (8 : ℚ) ≤ x) :=
  ⟨by decide,
   (select_spec dfC1 "P" 8 2).2.1 _ (by decide),
   (select_spec dfC1 "P" 8 2).2.2.1 _ (by decide)⟩

/-- Counterexample to C5: on a dataframe with two equal-rated rows of the
selected city, the swapped order is a fully conforming output of the
pipeline (it is a permutation sorted by rating descending), yet it violates
stability: nothing in the code forces the pandas default quicksort to keep
the original order of tied rows. -/
theorem sort_stability_cex :
    SelectOutput dfTie "P" 0 5 outTie ∧ ¬ StableOnTies dfTie outTie := by
  constructor
  · exact ⟨outTie, ⟨by decide, by decide⟩, by decide⟩
  · intro h
    have hsub := h (mkRow "P" 9 "B") (mkRow "P" 9 "A") rfl (by decide)
    exact absurd hsub (by decide)

/-- Amended C5: the code guarantees only the relational sort contract.  The
executable `select` is one conforming implementation of the pipeline (its
insertion sort is in fact stable, but stability is not promised by the
pandas call, as the counterexample shows). -/
theorem select_conforms (df : List Row) (city : String) (m : ℚ) (n : ℕ) :
    SelectOutput df city m n (select df city m n) :=
  ⟨sortRows (df.filter (cityEq city)),
   ⟨List.perm_insertionSort _ _, List.sorted_insertionSort _ _⟩, rfl⟩

/-- Claim C8: when the selection is empty the script emits the empty-state
warning and stops (`st.stop()`), so the map-building section is never
reached: no bounding box, no markers, no map view. -/
theorem empty_state_halts (df : List Row) (city : String) (m : ℚ) (n : ℕ)
    (h : select df city m n = []) :
    app df city m n
      = RenderResult.emptyNotice
          ("No hotels meeting the criteria in **" ++ city ++ "**.")
    ∧ ∀ v : MapView, app df city m n ≠ RenderResult.mapView v := by
  have happ : app df city m n
      = RenderResult.emptyNotice
          ("No hotels meeting the criteria in **" ++ city ++ "**.") := by
    simp [app, h]
  exact ⟨happ, fun v hv => by rw [happ] at hv; exact RenderResult.noConfusion hv⟩

/-- Witness for C8: the empty dataframe renders the warning for Lyon. -/
theorem empty_state_halts_witness :
    select [] "Lyon" 0 5 = []
    ∧ app [] "Lyon" 0 5
      = RenderResult.emptyNotice "No hotels meeting the criteria in **Lyon**." :=
  ⟨rfl, (empty_state_halts [] "Lyon" 0 5 rfl).1⟩

/-- Counterexample to C9: the legend line names the green, orange and red
categories only; no text in it describes the gray (missing-rating) marker
category, so the legend does not describe all four categories. -/
theorem legend_four_categories_cex : ¬ legendDescribesFour := by
  unfold legendDescribesFour mentionsGray
  decide

/-- Amended C9: the legend describes exactly the three rating-based marker
categories; the gray category is not described. -/
theorem legend_three_categories :
    "🟢".data <:+: legend.data ∧ "🟠".data <:+: legend.data
    ∧ "🔴".data <:+: legend.data ∧ ¬ mentionsGray legend := by
  unfold mentionsGray
  decide

/-- Counterexample to C7: a row whose name column holds NaN renders the
string "nan", not the documented default "Unknown Hotel", because
`Series.get` only falls back on an absent key. -/
theorem render_defaults_cex :
    rowNanName.hotel_name = Cell.nan
    ∧ nameShown rowNanName = "nan"
    ∧ nameShown rowNanName ≠ "Unknown Hotel" :=
  ⟨rfl, rfl, by decide⟩

/-- Amended C7: the documented defaults are substituted when the optional
column is absent from the row (name, url, description respectively), and
rendering is a total function; a present NaN name instead renders as "nan". -/
theorem render_defaults_amended (r : Row) :
    (r.hotel_name = Cell.absent → "Unknown Hotel".data <:+: (popup_html r).data)
    ∧ (r.hotel_url = Cell.absent → urlShown r = "#")
    ∧ (r.hotel_description = Cell.absent → descShown r = "")
    ∧ (r.hotel_name = Cell.nan → nameShown r = "nan") := by
  refine ⟨?_, ?_, ?_, ?_⟩
  · intro h
    have hname : (safe_name r).data = "Unknown Hotel".data := by
      unfold safe_name nameShown getStr
      rw [h]
      decide
    refine ⟨popupT1.data,
      (popupT2 ++ rating_txt r ++ popupT3 ++ safe_desc r ++ popupT4
        ++ safe_url r ++ popupT5).data, ?_⟩
    rw [← hname]
    simp [popup_html, List.append_assoc]
  · intro h
    simp [urlShown, getStr, h]
  · intro h
    simp [descShown, getStr, h]
  · intro h
    simp [nameShown, getStr, h]

/-- Witness for C7 at rows with absent and NaN optional columns. -/
theorem render_defaults_witness :
    rowAllAbsent.hotel_name = Cell.absent
    ∧ "Unknown Hotel".data <:+: (popup_html rowAllAbsent).data
    ∧ urlShown rowAllAbsent = "#"
    ∧ descShown rowAllAbsent = ""
    ∧ nameShown rowNanName = "nan" :=
  ⟨rfl, (render_defaults_amended rowAllAbsent).1 rfl,
   (render_defaults_amended rowAllAbsent).2.1 rfl,
   (render_defaults_amended rowAllAbsent).2.2.1 rfl,
   (render_defaults_amended rowNanName).2.2.2 rfl⟩

/-- Counterexample to C6: for a 350-character description made of
ampersands, the rendered text is not the escape of the first 300 characters
of the description, because the code truncates after escaping: the first
300 characters of the escaped text cover only the first 60 ampersands. -/
theorem desc_truncation_cex :
    (descShown rowAmp).data.length = 350
    ∧ (safe_desc rowAmp).data
      ≠ escList ((descShown rowAmp).data.take 300) ++ ['.', '.', '.'] := by
  constructor
  · decide
  · decide

/-- Amended C6: the escaped description is truncated to 300 characters and
the ellipsis is appended iff the raw description is longer than 300
characters; when no character of the description needs escaping this is
exactly the first 300 characters of the description. -/
theorem desc_truncation_amended (r : Row)
    (hclean : ∀ c ∈ (descShown r).data, escChar c = [c]) :
    (safe_desc r).data = (descShown r).data.take 300
      ++ (if 300 < (descShown r).data.length then ['.', '.', '.'] else []) := by
  rw [safe_desc_data, escList_eq_self _ hclean]

/-- Witness for C6: a plain 350-letter description renders as its first 300
characters followed by the ellipsis. -/
theorem desc_truncation_witness :
    (descShown rowLong).data.length = 350
    ∧ (∀ c ∈ (descShown rowLong).data, escChar c = [c])
    ∧ (safe_desc rowLong).data
      = (descShown rowLong).data.take 300 ++ ['.', '.', '.'] := by
  have hclean : ∀ c ∈ (descShown rowLong).data, escChar c = [c] := by decide
  refine ⟨by decide, hclean, ?_⟩
  rw [desc_truncation_amended rowLong hclean, if_pos (by decide)]

/-- Helper: a suffix of a list is a suffix of any extension on the left. -/
lemma suffix_cons_of_suffix {s l : List Char} (c : Char) (h : s <:+ l) :
    s <:+ c :: l := by
  obtain ⟨t, rfl⟩ := h
  exact ⟨c :: t, rfl⟩

/-- Helper: dropping the head preserves `EndsOk` (the tail of a list has the
same suffixes except possibly the whole list, handled by length). -/
lemma endsOk_tail {c : Char} {a : List Char} (h : EndsOk (c :: a)) :
    EndsOk a :=
  ⟨fun hx => h.1 (suffix_cons_of_suffix c hx),
   fun hx => h.2 (suffix_cons_of_suffix c hx)⟩

/-- Helper: the script-tag opening cannot appear in a concatenation of a
tag-free block with a safe tail and a tag-free block. -/
lemma not_pat_append (b : List Char) (hb : ¬ ['<', 's', 'c'] <:+: b) :
    ∀ a : List Char, ¬ ['<', 's', 'c'] <:+: a → EndsOk a →
      ¬ ['<', 's', 'c'] <:+: (a ++ b) := by
  intro a
  induction a with
  | nil =>
    intro _ _ h
    exact hb (by simpa using h)
  | cons c a ih =>
    intro ha he h
    rw [List.cons_append] at h
    rcases List.infix_cons_iff.mp h with hpre | hinf
    · obtain ⟨t, ht⟩ := hpre
      simp only [List.cons_append] at ht
      obtain ⟨hc, ht2⟩ := List.cons.inj ht
      cases a with
      | nil =>
        exact he.1 ⟨[], by rw [List.nil_append, ← hc]⟩
      | cons c2 a2 =>
        rw [List.cons_append] at ht2
        obtain ⟨hc2, ht3⟩ := List.cons.inj ht2
        cases a2 with
        | nil =>
          exact he.2 ⟨[], by rw [List.nil_append, ← hc, ← hc2]⟩
        | cons c3 a3 =>
          rw [List.cons_append] at ht3
          obtain ⟨hc3, -⟩ := List.cons.inj ht3
          exact ha ⟨[], a3, by rw [List.nil_append, ← hc, ← hc2, ← hc3]; simp⟩
    · exact ih (fun hx => ha (List.infix_cons hx)) (endsOk_tail he) hinf

/-- Helper: `EndsOk` is preserved by concatenation. -/
lemma endsOk_append (b : List Char) (hb : EndsOk b) :
    ∀ a : List Char, EndsOk a → EndsOk (a ++ b) := by
  intro a
  induction a with
  | nil =>
    intro _
    simpa using hb
  | cons c a ih =>
    intro he
    have hab := ih (endsOk_tail he)
    constructor
    · intro hx
      rw [List.cons_append] at hx
      rcases List.suffix_cons_iff.mp hx with heq | hsuf
      · obtain ⟨hc, h0⟩ := List.cons.inj heq
        have ha0 := (List.append_eq_nil.mp h0.symm).1
        exact he.1 ⟨[], by simp [← hc, ha0]⟩
      · exact hab.1 hsuf
    · intro hx
      rw [List.cons_append] at hx
      rcases List.suffix_cons_iff.mp hx with heq | hsuf
      · obtain ⟨hc, h1⟩ := List.cons.inj heq
        cases a with
        | nil =>
          exact he.1 ⟨[], by simp [← hc]⟩
        | cons c2 a2 =>
          rw [List.cons_append] at h1
          obtain ⟨hc2, h2⟩ := List.cons.inj h1
          have ha2 := (List.append_eq_nil.mp h2.symm).1
          exact he.2 ⟨[], by simp [← hc, ← hc2, ha2]⟩
      · exact hab.2 hsuf

/-- Helper: `SafeChunk` is preserved by concatenation. -/
lemma safeChunk_append {a b : List Char} (ha : SafeChunk a)
    (hb : SafeChunk b) : SafeChunk (a ++ b) :=
  ⟨not_pat_append b hb.1 a ha.1 ha.2, endsOk_append b hb.2 a ha.2⟩

/-- Helper: a list with no left angle bracket is a safe chunk. -/
lemma noLT_safeChunk {l : List Char} (h : NoLT l) : SafeChunk l := by
  refine ⟨?_, ?_, ?_⟩
  · rintro ⟨s, t, rfl⟩
    exact h (by simp)
  · rintro ⟨t, rfl⟩
    exact h (by simp)
  · rintro ⟨t, rfl⟩
    exact h (by simp)

/-- Helper: no escape produces a left angle bracket. -/
lemma noLT_escChar (c : Char) : '<' ∉ escChar c := by
  unfold escChar
  split_ifs with h1 h2 h3 h4 h5
  · decide
  · decide
  · decide
  · decide
  · decide
  · simp only [List.mem_singleton]
    exact fun hx => h2 hx.symm

/-- Helper: escaped text contains no left angle bracket. -/
lemma noLT_escList (l : List Char) : NoLT (escList l) := by
  induction l with
  | nil =>
    intro h
    simp [escList] at h
  | cons c cs ih =>
    intro h
    rw [escList] at h
    rcases List.mem_append.mp h with h | h
    · exact noLT_escChar c h
    · exact ih h

/-- Helper: every character printed for a natural number is a decimal
digit. -/
lemma natChars_digit (n : ℕ) :
    ∀ c ∈ natChars n, ∃ d, d < 10 ∧ c = Char.ofNat (48 + d) := by
  induction n using natChars.induct with
  | case1 n h =>
    intro c hc
    unfold natChars at hc
    rw [dif_pos h] at hc
    exact ⟨n, h, List.mem_singleton.mp hc⟩
  | case2 n h ih =>
    intro c hc
    unfold natChars at hc
    rw [dif_neg h] at hc
    rcases List.mem_append.mp hc with hc | hc
    · exact ih c hc
    · exact ⟨n % 10, Nat.mod_lt _ (by omega), List.mem_singleton.mp hc⟩

/-- Helper: digit text contains no left angle bracket. -/
lemma noLT_natChars (n : ℕ) : '<' ∉ natChars n := by
  intro h
  obtain ⟨d, hd, hc⟩ := natChars_digit n '<' h
  interval_cases d <;> exact absurd hc (by decide)

/-- Helper: character list of the formatted rating. -/
lemma fmt1_data (q : ℚ) :
    (fmt1 q).data
      = (if q < 0 then ['-'] else [])
        ++ natChars ((roundTiesEven (q * 10)).natAbs / 10)
        ++ '.' :: natChars ((roundTiesEven (q * 10)).natAbs % 10) := rfl

/-- Helper: the formatted rating contains no left angle bracket. -/
lemma noLT_fmt1 (q : ℚ) : NoLT (fmt1 q).data := by
  intro h
  rw [fmt1_data] at h
  rcases List.mem_append.mp h with h | h
  · rcases List.mem_append.mp h with h | h
    · split at h
      · exact absurd h (by decide)
      · simp at h
    · exact noLT_natChars _ h
  · rcases List.mem_cons.mp h with h | h
    · exact absurd h (by decide)
    · exact noLT_natChars _ h

/-- Helper: the rating text contains no left angle bracket. -/
lemma noLT_rating_txt (r : Row) : NoLT (rating_txt r).data := by
  cases hx : r.hotel_rating with
  | none =>
    have hr : rating_txt r = "N/A" := by simp [rating_txt, hx]
    rw [hr]
    intro h
    exact absurd h (by decide)
  | some x =>
    have hr : rating_txt r = fmt1 x := by simp [rating_txt, hx]
    rw [hr]
    exact noLT_fmt1 x

/-- Helper: the rendered description contains no left angle bracket. -/
lemma noLT_safe_desc (r : Row) : NoLT (safe_desc r).data := by
  intro h
  rw [safe_desc_data] at h
  rcases List.mem_append.mp h with h | h
  · exact noLT_escList (descShown r).data (List.take_subset _ _ h)
  · split at h
    · exact absurd h (by decide)
    · simp at h

/-- Helper: the first popup chunk is safe. -/
lemma safeChunk_popupT1 : SafeChunk popupT1.data :=
  ⟨by decide, by decide, by decide⟩

/-- Helper: the second popup chunk is safe. -/
lemma safeChunk_popupT2 : SafeChunk popupT2.data :=
  ⟨by decide, by decide, by decide⟩

/-- Helper: the third popup chunk is safe. -/
lemma safeChunk_popupT3 : SafeChunk popupT3.data :=
  ⟨by decide, by decide, by decide⟩

/-- Helper: the fourth popup chunk is safe. -/
lemma safeChunk_popupT4 : SafeChunk popupT4.data :=
  ⟨by decide, by decide, by decide⟩

/-- Helper: the fifth popup chunk is safe. -/
lemma safeChunk_popupT5 : SafeChunk popupT5.data :=
  ⟨by decide, by decide, by decide⟩

/-- Helper: character list of the escape of a string. -/
lemma htmlEscape_data (s : String) : (htmlEscape s).data = escList s.data :=
  rfl

/-- Helper: the popup markup as one explicit concatenation. -/
lemma popup_data_eq (r : Row) :
    (popup_html r).data
      = popupT1.data ++ (escList (nameShown r).data ++ (popupT2.data
        ++ ((rating_txt r).data ++ (popupT3.data ++ ((safe_desc r).data
        ++ (popupT4.data ++ (escList (urlShown r).data ++ popupT5.data))))))) := by
  simp only [popup_html, String.data_append, safe_name, safe_url,
    htmlEscape_data, List.append_assoc]

/-- Helper: the whole popup markup is a safe chunk, because every injected
piece of data is escaped (or is digit text) and the literal markup contains
no script tag. -/
lemma popup_safeChunk (r : Row) : SafeChunk (popup_html r).data := by
  rw [popup_data_eq]
  refine safeChunk_append safeChunk_popupT1 ?_
  refine safeChunk_append (noLT_safeChunk (noLT_escList _)) ?_
  refine safeChunk_append safeChunk_popupT2 ?_
  refine safeChunk_append (noLT_safeChunk (noLT_rating_txt r)) ?_
  refine safeChunk_append safeChunk_popupT3 ?_
  refine safeChunk_append (noLT_safeChunk (noLT_safe_desc r)) ?_
  refine safeChunk_append safeChunk_popupT4 ?_
  exact safeChunk_append (noLT_safeChunk (noLT_escList _)) safeChunk_popupT5

/-- Counterexample to C3 as stated: when the script tag of the description
starts at position 297, its escape is cut by the 300-character truncation,
so the popup does not contain the full escaped form (it still never
contains the raw tag). -/
theorem popup_escaping_cex :
    rowScriptFar.hotel_description = Cell.str descFar
    ∧ "<script>".data <:+: descFar.data
    ∧ ¬ ("&lt;script&gt;".data <:+: (popup_html rowScriptFar).data) :=
  ⟨rfl, by decide, by decide⟩

/-- Amended C3: every data-derived string in the popup is escaped before
insertion, so the popup never contains a raw script tag, for any row; and
whenever the escaped description survives the 300-character truncation in
full, the popup does contain the escaped form of the tag. -/
theorem popup_escaping_amended :
    (∀ r : Row, ¬ ("<script>".data <:+: (popup_html r).data))
    ∧ (∀ (r : Row) (d : String), r.hotel_description = Cell.str d →
        "<script>".data <:+: d.data → (escList d.data).length ≤ 300 →
        "&lt;script&gt;".data <:+: (popup_html r).data) := by
  constructor
  · intro r h
    obtain ⟨s, t, hst⟩ := h
    have hd : ("<script>".data : List Char)
        = ['<', 's', 'c'] ++ ['r', 'i', 'p', 't', '>'] := rfl
    rw [hd] at hst
    apply (popup_safeChunk r).1
    exact ⟨s, ['r', 'i', 'p', 't', '>'] ++ t, by rw [← hst]; simp⟩
  · intro r d hdesc hscript hlen
    have hds : descShown r = d := by simp [descShown, getStr, hdesc]
    obtain ⟨u, v, huv⟩ := hscript
    have h1 : escList "<script>".data = "&lt;script&gt;".data := by decide
    have hesc : escList d.data
        = escList u ++ "&lt;script&gt;".data ++ escList v := by
      rw [← huv, escList_append, escList_append, h1]
    have h2 : "&lt;script&gt;".data <:+: (safe_desc r).data := by
      refine ⟨escList u, escList v
        ++ (if 300 < d.data.length then ['.', '.', '.'] else []), ?_⟩
      rw [safe_desc_data, hds, List.take_of_length_le hlen, hesc]
      simp [List.append_assoc]
    have h3 : (safe_desc r).data <:+: (popup_html r).data := by
      rw [popup_data_eq]
      exact ⟨popupT1.data ++ (escList (nameShown r).data ++ (popupT2.data
          ++ ((rating_txt r).data ++ popupT3.data))),
        popupT4.data ++ (escList (urlShown r).data ++ popupT5.data),
        by simp [List.append_assoc]⟩
    exact h2.trans h3

/-- Witness for C3 (amended): a short description with a script tag renders
with the escaped form present and the raw tag absent. -/
theorem popup_escaping_witness :
    rowScriptNear.hotel_description = Cell.str "x<script>y"
    ∧ "<script>".data <:+: "x<script>y".data
    ∧ (escList "x<script>y".data).length ≤ 300
    ∧ "&lt;script&gt;".data <:+: (popup_html rowScriptNear).data
    ∧ ¬ ("<script>".data <:+: (popup_html rowScriptNear).data) :=
  ⟨rfl, by decide, by decide,
   popup_escaping_amended.2 rowScriptNear "x<script>y" rfl (by decide) (by decide),
   popup_escaping_amended.1 rowScriptNear⟩

/-- Helper: every row surviving `load_data` has a present rating (same fact
as the loader invariant, restated for reuse). -/
lemma load_data_rating_isSome (parse : String → Option ℚ)
    (rows : List RawRow) :
    ∀ r ∈ load_data parse rows, r.hotel_rating.isSome = true := by
  intro r hr
  exact (List.mem_filter.mp hr).2

/-- Claim C10: for rendered rows (selected from the loaded dataset) the
missing-rating branches are dead: the marker color is never gray, the popup
rating text is never the literal "N/A", and every marker is green, orange
or red. -/
theorem no_missing_rating_branches (parse : String → Option ℚ)
    (rows : List RawRow) (city : String) (m : ℚ) (n : ℕ) :
    ∀ r ∈ select (load_data parse rows) city m n,
      (buildMarker r).color ≠ "gray"
      ∧ rating_txt r ≠ "N/A"
      ∧ ((buildMarker r).color = "green" ∨ (buildMarker r).color = "orange"
          ∨ (buildMarker r).color = "red") := by
  intro r hr
  have hin := select_subset (load_data parse rows) city m n r hr
  have hsome := load_data_rating_isSome parse rows r hin
  obtain ⟨x, hx⟩ := Option.isSome_iff_exists.mp hsome
  have hcolor : (buildMarker r).color = color_by_rating (some x) := by
    simp [buildMarker, hx]
  refine ⟨?_, ?_, ?_⟩
  · rw [hcolor]
    dsimp only [color_by_rating]
    split_ifs <;> decide
  · have hrt : rating_txt r = fmt1 x := by simp [rating_txt, hx]
    rw [hrt]
    intro hq
    have hdot : '.' ∈ (fmt1 x).data := by
      rw [fmt1_data]
      exact List.mem_append_right _ (List.mem_cons_self _ _)
    rw [hq] at hdot
    exact absurd hdot (by decide)
  · rw [hcolor]
    dsimp only [color_by_rating]
    split_ifs <;> simp

/-- Witness for C10 on a concrete loaded dataset. -/
theorem no_missing_rating_branches_witness :
    toNumericRow parseSample rawSample
        ∈ select (load_data parseSample [rawSample]) "Paris" 8 5
    ∧ (buildMarker (toNumericRow parseSample rawSample)).color ≠ "gray" :=
  ⟨by decide,
   (no_missing_rating_branches parseSample [rawSample] "Paris" 8 5 _
     (by decide)).1⟩
